import Mathlib

/-!
Distribution REST transaction handlers (`x/distribution/client/rest/tx.go`).

A shallow embedding of the three reward-withdrawal handlers and of the two
path-variable helpers.  Every function the handlers call in another package is
a field of `Collaborators`; a handler is a state-passing program over the
chronological log of the calls it makes, so that "is invoked", "is never
invoked" and "exactly once" are statements about that log.
-/

namespace Rest

/-! ## Data model -/

/-- Go's `sdk.AccAddress`, a byte slice: `none` is the nil slice. -/
structure AccAddress where
  bytes : Option (List Nat)
  deriving DecidableEq, Repr

/-- Go's `sdk.ValAddress`, a byte slice: `none` is the nil slice. -/
structure ValAddress where
  bytes : Option (List Nat)
  deriving DecidableEq, Repr

/-- The nil account address (`return nil, true`). -/
def AccAddress.nil : AccAddress := ⟨none⟩

/-- The nil validator address (`return nil, true`). -/
def ValAddress.nil : ValAddress := ⟨none⟩

/-- Modelled from the spec: the declaration of `utils.BaseReq` lies outside
`tx.go`; the fields are the ones the data model names (account number and
sequence context, gas and fee parameters, the generate-only flag).  The
handlers read `GenerateOnly` only. -/
structure BaseReq where
  ChainID : String
  AccountNumber : Nat
  Sequence : Nat
  Gas : String
  Fees : String
  GenerateOnly : Bool
  deriving DecidableEq, Repr

/-- The request body shape, `type withdrawRewardsReq struct`. -/
structure withdrawRewardsReq where
  BaseReq : BaseReq
  deriving DecidableEq, Repr

/-- The part of `*http.Request` the handlers look at: the body handed to the
decoder and the router's path variables (`mux.Vars(r)`). -/
structure Request where
  Body : String
  Vars : List (String × String)
  deriving DecidableEq, Repr

/-- Indexing `mux.Vars(r)[key]`: a Go map yields the empty string for an
absent key. -/
def muxVars (r : Request) (key : String) : String :=
  (r.Vars.lookup key).getD ""

/-- Constant `http.StatusBadRequest`. -/
def StatusBadRequest : Nat := 400

/-- Constant `http.StatusInternalServerError`. -/
def StatusInternalServerError : Nat := 500

/-- One entry of the call log: a call a handler (or a helper) makes into
another package, with the arguments that matter.  `ValidateBasic` also records
what it returned, because a `false` return means it wrote the response. -/
inductive Call (Msg : Type) where
  | ReadRESTReq (r : Request)
  | Sanitize (br : BaseReq)
  | ValidateBasic (br : BaseReq) (ret : Bool)
  | AccAddressFromBech32 (text : String)
  | ValAddressFromBech32 (text : String)
  | WithdrawAllDelegatorRewards (queryRoute : String) (delAddr : AccAddress)
  | NewMsgWithdrawDelegatorReward (delAddr : AccAddress) (valAddr : ValAddress)
  | MsgValidateBasic (msg : Msg)
  | WithdrawValidatorRewardsAndCommission (valAddr : ValAddress)
  | WriteErrorResponse (status : Nat) (text : String)
  | WriteGenerateStdTxResponse (br : BaseReq) (msgs : List Msg)
  | CompleteAndBroadcastTxREST (br : BaseReq) (msgs : List Msg)
  deriving DecidableEq, Repr

/-- The functions of other packages the handlers call.  A Go `error` is its
text (`err.Error()`); `cdc` and `cliCtx` are fixed per handler and are part of
the collaborator. -/
structure Collaborators (Msg : Type) where
  ReadRESTReq : Request → Except String withdrawRewardsReq
  Sanitize : BaseReq → BaseReq
  ValidateBasic : BaseReq → Bool
  AccAddressFromBech32 : String → Except String AccAddress
  ValAddressFromBech32 : String → Except String ValAddress
  WithdrawAllDelegatorRewards : String → AccAddress → Except String (List Msg)
  NewMsgWithdrawDelegatorReward : AccAddress → ValAddress → Msg
  MsgValidateBasic : Msg → Option String
  WithdrawValidatorRewardsAndCommission : ValAddress → Except String (List Msg)

/-- The call log, oldest call first. -/
abbrev Log (Msg : Type) := List (Call Msg)

/-- A program that appends to the call log and returns a value. -/
abbrev Handler (Msg : Type) (α : Type) := Log Msg → α × Log Msg

/-- Append one call to the log. -/
def invoke {Msg : Type} (c : Call Msg) : Handler Msg Unit :=
  fun log => ((), log ++ [c])

/-! ## Auxiliary -/

/-- Source: `checkDelegatorAddressVar`. -/
def checkDelegatorAddressVar {Msg : Type} (env : Collaborators Msg) (r : Request) :
    Handler Msg (AccAddress × Bool) := fun w =>
  let text := muxVars r "delegatorAddr"
  let (_, w) := invoke (.AccAddressFromBech32 text) w
  match env.AccAddressFromBech32 text with
  | .error err =>
    let (_, w) := invoke (.WriteErrorResponse StatusBadRequest err) w
    ((AccAddress.nil, true), w)
  | .ok addr => ((addr, false), w)

/-- Source: `checkValidatorAddressVar`. -/
def checkValidatorAddressVar {Msg : Type} (env : Collaborators Msg) (r : Request) :
    Handler Msg (ValAddress × Bool) := fun w =>
  let text := muxVars r "validatorAddr"
  let (_, w) := invoke (.ValAddressFromBech32 text) w
  match env.ValAddressFromBech32 text with
  | .error err =>
    let (_, w) := invoke (.WriteErrorResponse StatusBadRequest err) w
    ((ValAddress.nil, true), w)
  | .ok addr => ((addr, false), w)

/-! ## Handlers -/

/-- Source: `withdrawDelegatorRewardsHandlerFn` (the returned closure). -/
def withdrawDelegatorRewardsHandlerFn {Msg : Type} (env : Collaborators Msg)
    (queryRoute : String) (r : Request) : Handler Msg Unit := fun w =>
  let (_, w) := invoke (.ReadRESTReq r) w
  match env.ReadRESTReq r with
  | .error err => invoke (.WriteErrorResponse StatusBadRequest err) w
  | .ok req =>
    let (_, w) := invoke (.Sanitize req.BaseReq) w
    let req : withdrawRewardsReq := { req with BaseReq := env.Sanitize req.BaseReq }
    let (_, w) := invoke (.ValidateBasic req.BaseReq (env.ValidateBasic req.BaseReq)) w
    if !env.ValidateBasic req.BaseReq then ((), w)
    else
      let ((delAddr, abort), w) := checkDelegatorAddressVar env r w
      if abort then ((), w)
      else
        let (_, w) := invoke (.WithdrawAllDelegatorRewards queryRoute delAddr) w
        match env.WithdrawAllDelegatorRewards queryRoute delAddr with
        | .error err => invoke (.WriteErrorResponse StatusInternalServerError err) w
        | .ok msgs =>
          if req.BaseReq.GenerateOnly then
            invoke (.WriteGenerateStdTxResponse req.BaseReq msgs) w
          else
            invoke (.CompleteAndBroadcastTxREST req.BaseReq msgs) w

/-- Source: `withdrawDelegationRewardsHandlerFn` (the returned closure). -/
def withdrawDelegationRewardsHandlerFn {Msg : Type} (env : Collaborators Msg)
    (r : Request) : Handler Msg Unit := fun w =>
  let (_, w) := invoke (.ReadRESTReq r) w
  match env.ReadRESTReq r with
  | .error err => invoke (.WriteErrorResponse StatusBadRequest err) w
  | .ok req =>
    let (_, w) := invoke (.Sanitize req.BaseReq) w
    let req : withdrawRewardsReq := { req with BaseReq := env.Sanitize req.BaseReq }
    let (_, w) := invoke (.ValidateBasic req.BaseReq (env.ValidateBasic req.BaseReq)) w
    if !env.ValidateBasic req.BaseReq then ((), w)
    else
      let ((delAddr, abort), w) := checkDelegatorAddressVar env r w
      if abort then ((), w)
      else
        let ((valAddr, abort), w) := checkValidatorAddressVar env r w
        if abort then ((), w)
        else
          let (_, w) := invoke (.NewMsgWithdrawDelegatorReward delAddr valAddr) w
          let msg := env.NewMsgWithdrawDelegatorReward delAddr valAddr
          let (_, w) := invoke (.MsgValidateBasic msg) w
          match env.MsgValidateBasic msg with
          | some err => invoke (.WriteErrorResponse StatusBadRequest err) w
          | none =>
            if req.BaseReq.GenerateOnly then
              invoke (.WriteGenerateStdTxResponse req.BaseReq [msg]) w
            else
              invoke (.CompleteAndBroadcastTxREST req.BaseReq [msg]) w

/-- Source: `withdrawValidatorRewardsHandlerFn` (the returned closure). -/
def withdrawValidatorRewardsHandlerFn {Msg : Type} (env : Collaborators Msg)
    (r : Request) : Handler Msg Unit := fun w =>
  let (_, w) := invoke (.ReadRESTReq r) w
  match env.ReadRESTReq r with
  | .error err => invoke (.WriteErrorResponse StatusBadRequest err) w
  | .ok req =>
    let (_, w) := invoke (.Sanitize req.BaseReq) w
    let req : withdrawRewardsReq := { req with BaseReq := env.Sanitize req.BaseReq }
    let (_, w) := invoke (.ValidateBasic req.BaseReq (env.ValidateBasic req.BaseReq)) w
    if !env.ValidateBasic req.BaseReq then ((), w)
    else
      let ((valAddr, abort), w) := checkValidatorAddressVar env r w
      if abort then ((), w)
      else
        let (_, w) := invoke (.WithdrawValidatorRewardsAndCommission valAddr) w
        match env.WithdrawValidatorRewardsAndCommission valAddr with
        | .error err => invoke (.WriteErrorResponse StatusBadRequest err) w
        | .ok msgs =>
          if req.BaseReq.GenerateOnly then
            invoke (.WriteGenerateStdTxResponse req.BaseReq msgs) w
          else
            invoke (.CompleteAndBroadcastTxREST req.BaseReq msgs) w

/-- The calls a handler makes for one request, starting from an empty log. -/
def trace {Msg : Type} (h : Handler Msg Unit) : Log Msg := (h []).2

/-! ## Reading the call log -/

/-- A call that produces the HTTP response: `WriteErrorResponse`, a
`BaseReq.ValidateBasic` that returned false (it writes the error itself), the
generate-tx writer and the broadcast collaborator. -/
def Call.isResponse {Msg : Type} : Call Msg → Bool
  | .WriteErrorResponse _ _ => true
  | .ValidateBasic _ ret => !ret
  | .WriteGenerateStdTxResponse _ _ => true
  | .CompleteAndBroadcastTxREST _ _ => true
  | _ => false

/-- The two dispatch collaborators. -/
def Call.isDispatch {Msg : Type} : Call Msg → Bool
  | .WriteGenerateStdTxResponse _ _ => true
  | .CompleteAndBroadcastTxREST _ _ => true
  | _ => false

/-- The three message builders. -/
def Call.isBuilder {Msg : Type} : Call Msg → Bool
  | .WithdrawAllDelegatorRewards _ _ => true
  | .NewMsgWithdrawDelegatorReward _ _ => true
  | .WithdrawValidatorRewardsAndCommission _ => true
  | _ => false

/-- The two bech32 address decoders. -/
def Call.isAddressDecode {Msg : Type} : Call Msg → Bool
  | .AccAddressFromBech32 _ => true
  | .ValAddressFromBech32 _ => true
  | _ => false

/-- Position of a call in the pipeline: decode the body, sanitize, validate,
resolve the delegator address, resolve the validator address, build, validate
the built message, dispatch; an error response closes the request. -/
def Call.position {Msg : Type} : Call Msg → Nat
  | .ReadRESTReq _ => 1
  | .Sanitize _ => 2
  | .ValidateBasic _ _ => 3
  | .AccAddressFromBech32 _ => 4
  | .ValAddressFromBech32 _ => 5
  | .WithdrawAllDelegatorRewards _ _ => 6
  | .NewMsgWithdrawDelegatorReward _ _ => 6
  | .WithdrawValidatorRewardsAndCommission _ => 6
  | .MsgValidateBasic _ => 7
  | .WriteGenerateStdTxResponse _ _ => 8
  | .CompleteAndBroadcastTxREST _ _ => 8
  | .WriteErrorResponse _ _ => 9

/-! ## A concrete set of collaborators

Used to evaluate the handlers on explicit requests. -/

/-- The two message kinds of the distribution module that the builders emit. -/
inductive DistrMsg where
  | WithdrawDelegatorReward (delAddr : AccAddress) (valAddr : ValAddress)
  | WithdrawValidatorCommission (valAddr : ValAddress)
  deriving DecidableEq, Repr

/-- A small deterministic stand-in for the other packages: an empty body does
not decode, chain id `"bad"` does not validate, the only decodable non-empty
addresses are `"cosmos1"` and `"cosmosvaloper1"`, an empty address text decodes
to an empty (non-nil) address that the message and the validator builder
reject, and an empty query route makes the delegator query fail. -/
def stubCollaborators : Collaborators DistrMsg where
  ReadRESTReq := fun r =>
    if r.Body = "" then .error "EOF"
    else .ok ⟨{ ChainID := r.Body, AccountNumber := 7, Sequence := 3, Gas := "", Fees := "",
                GenerateOnly := decide (r.Body = "generate") }⟩
  Sanitize := fun br => { br with Gas := if br.Gas = "" then "200000" else br.Gas }
  ValidateBasic := fun br => decide (br.ChainID ≠ "bad")
  AccAddressFromBech32 := fun text =>
    if text = "" then .ok ⟨some []⟩
    else if text = "cosmos1" then .ok ⟨some [1]⟩
    else .error "decoding bech32 failed (account)"
  ValAddressFromBech32 := fun text =>
    if text = "" then .ok ⟨some []⟩
    else if text = "cosmosvaloper1" then .ok ⟨some [2]⟩
    else .error "decoding bech32 failed (validator)"
  WithdrawAllDelegatorRewards := fun queryRoute delAddr =>
    if queryRoute = "" then .error "query failed"
    else .ok [.WithdrawDelegatorReward delAddr ⟨some [2]⟩, .WithdrawDelegatorReward delAddr ⟨some [5]⟩]
  NewMsgWithdrawDelegatorReward := fun delAddr valAddr => .WithdrawDelegatorReward delAddr valAddr
  MsgValidateBasic := fun msg =>
    match msg with
    | .WithdrawDelegatorReward ⟨some []⟩ _ => some "delegator address is nil"
    | _ => none
  WithdrawValidatorRewardsAndCommission := fun valAddr =>
    if valAddr.bytes = some [] then .error "validator address is nil"
    else .ok [.WithdrawDelegatorReward ⟨valAddr.bytes⟩ valAddr, .WithdrawValidatorCommission valAddr]

/-! ## Theorems -/

/-- Case principle for `withdrawDelegatorRewardsHandlerFn`: a property holds of
the handler's call log as soon as it holds of the log of each of its six
outcomes. -/
theorem delegator_trace_cases {Msg : Type} (env : Collaborators Msg)
    (queryRoute : String) (r : Request) (P : Log Msg → Prop)
    (hDecode : ∀ err, env.ReadRESTReq r = .error err →
      P [.ReadRESTReq r, .WriteErrorResponse 400 err])
    (hValidate : ∀ req, env.ReadRESTReq r = .ok req →
      env.ValidateBasic (env.Sanitize req.BaseReq) = false →
      P [.ReadRESTReq r, .Sanitize req.BaseReq,
         .ValidateBasic (env.Sanitize req.BaseReq) false])
    (hAddr : ∀ req err, env.ReadRESTReq r = .ok req →
      env.ValidateBasic (env.Sanitize req.BaseReq) = true →
      env.AccAddressFromBech32 (muxVars r "delegatorAddr") = .error err →
      P [.ReadRESTReq r, .Sanitize req.BaseReq,
         .ValidateBasic (env.Sanitize req.BaseReq) true,
         .AccAddressFromBech32 (muxVars r "delegatorAddr"),
         .WriteErrorResponse 400 err])
    (hBuild : ∀ req delAddr err, env.ReadRESTReq r = .ok req →
      env.ValidateBasic (env.Sanitize req.BaseReq) = true →
      env.AccAddressFromBech32 (muxVars r "delegatorAddr") = .ok delAddr →
      env.WithdrawAllDelegatorRewards queryRoute delAddr = .error err →
      P [.ReadRESTReq r, .Sanitize req.BaseReq,
         .ValidateBasic (env.Sanitize req.BaseReq) true,
         .AccAddressFromBech32 (muxVars r "delegatorAddr"),
         .WithdrawAllDelegatorRewards queryRoute delAddr,
         .WriteErrorResponse 500 err])
    (hGenerate : ∀ req delAddr msgs, env.ReadRESTReq r = .ok req →
      env.ValidateBasic (env.Sanitize req.BaseReq) = true →
      env.AccAddressFromBech32 (muxVars r "delegatorAddr") = .ok delAddr →
      env.WithdrawAllDelegatorRewards queryRoute delAddr = .ok msgs →
      (env.Sanitize req.BaseReq).GenerateOnly = true →
      P [.ReadRESTReq r, .Sanitize req.BaseReq,
         .ValidateBasic (env.Sanitize req.BaseReq) true,
         .AccAddressFromBech32 (muxVars r "delegatorAddr"),
         .WithdrawAllDelegatorRewards queryRoute delAddr,
         .WriteGenerateStdTxResponse (env.Sanitize req.BaseReq) msgs])
    (hBroadcast : ∀ req delAddr msgs, env.ReadRESTReq r = .ok req →
      env.ValidateBasic (env.Sanitize req.BaseReq) = true →
      env.AccAddressFromBech32 (muxVars r "delegatorAddr") = .ok delAddr →
      env.WithdrawAllDelegatorRewards queryRoute delAddr = .ok msgs →
      (env.Sanitize req.BaseReq).GenerateOnly = false →
      P [.ReadRESTReq r, .Sanitize req.BaseReq,
         .ValidateBasic (env.Sanitize req.BaseReq) true,
         .AccAddressFromBech32 (muxVars r "delegatorAddr"),
         .WithdrawAllDelegatorRewards queryRoute delAddr,
         .CompleteAndBroadcastTxREST (env.Sanitize req.BaseReq) msgs]) :
    P (trace (withdrawDelegatorRewardsHandlerFn env queryRoute r)) := by
  rcases h1 : env.ReadRESTReq r with err | req
  · have := hDecode err h1
    simpa [trace, withdrawDelegatorRewardsHandlerFn, invoke, h1, StatusBadRequest] using this
  cases h2 : env.ValidateBasic (env.Sanitize req.BaseReq)
  · have := hValidate req h1 h2
    simpa [trace, withdrawDelegatorRewardsHandlerFn, invoke, h1, h2] using this
  rcases h3 : env.AccAddressFromBech32 (muxVars r "delegatorAddr") with err | delAddr
  · have := hAddr req err h1 h2 h3
    simpa [trace, withdrawDelegatorRewardsHandlerFn, checkDelegatorAddressVar, invoke, h1, h2,
      h3, StatusBadRequest] using this
  rcases h4 : env.WithdrawAllDelegatorRewards queryRoute delAddr with err | msgs
  · have := hBuild req delAddr err h1 h2 h3 h4
    simpa [trace, withdrawDelegatorRewardsHandlerFn, checkDelegatorAddressVar, invoke, h1, h2,
      h3, h4, StatusInternalServerError] using this
  cases h5 : (env.Sanitize req.BaseReq).GenerateOnly
  · have := hBroadcast req delAddr msgs h1 h2 h3 h4 h5
    simpa [trace, withdrawDelegatorRewardsHandlerFn, checkDelegatorAddressVar, invoke, h1, h2,
      h3, h4, h5] using this
  · have := hGenerate req delAddr msgs h1 h2 h3 h4 h5
    simpa [trace, withdrawDelegatorRewardsHandlerFn, checkDelegatorAddressVar, invoke, h1, h2,
      h3, h4, h5] using this

/-- Case principle for `withdrawDelegationRewardsHandlerFn`: a property holds
of the handler's call log as soon as it holds of the log of each of its seven
outcomes. -/
theorem delegation_trace_cases {Msg : Type} (env : Collaborators Msg)
    (r : Request) (P : Log Msg → Prop)
    (hDecode : ∀ err, env.ReadRESTReq r = .error err →
      P [.ReadRESTReq r, .WriteErrorResponse 400 err])
    (hValidate : ∀ req, env.ReadRESTReq r = .ok req →
      env.ValidateBasic (env.Sanitize req.BaseReq) = false →
      P [.ReadRESTReq r, .Sanitize req.BaseReq,
         .ValidateBasic (env.Sanitize req.BaseReq) false])
    (hDelAddr : ∀ req err, env.ReadRESTReq r = .ok req →
      env.ValidateBasic (env.Sanitize req.BaseReq) = true →
      env.AccAddressFromBech32 (muxVars r "delegatorAddr") = .error err →
      P [.ReadRESTReq r, .Sanitize req.BaseReq,
         .ValidateBasic (env.Sanitize req.BaseReq) true,
         .AccAddressFromBech32 (muxVars r "delegatorAddr"),
         .WriteErrorResponse 400 err])
    (hValAddr : ∀ req delAddr err, env.ReadRESTReq r = .ok req →
      env.ValidateBasic (env.Sanitize req.BaseReq) = true →
      env.AccAddressFromBech32 (muxVars r "delegatorAddr") = .ok delAddr →
      env.ValAddressFromBech32 (muxVars r "validatorAddr") = .error err →
      P [.ReadRESTReq r, .Sanitize req.BaseReq,
         .ValidateBasic (env.Sanitize req.BaseReq) true,
         .AccAddressFromBech32 (muxVars r "delegatorAddr"),
         .ValAddressFromBech32 (muxVars r "validatorAddr"),
         .WriteErrorResponse 400 err])
    (hMsg : ∀ req delAddr valAddr err, env.ReadRESTReq r = .ok req →
      env.ValidateBasic (env.Sanitize req.BaseReq) = true →
      env.AccAddressFromBech32 (muxVars r "delegatorAddr") = .ok delAddr →
      env.ValAddressFromBech32 (muxVars r "validatorAddr") = .ok valAddr →
      env.MsgValidateBasic (env.NewMsgWithdrawDelegatorReward delAddr valAddr) = some err →
      P [.ReadRESTReq r, .Sanitize req.BaseReq,
         .ValidateBasic (env.Sanitize req.BaseReq) true,
         .AccAddressFromBech32 (muxVars r "delegatorAddr"),
         .ValAddressFromBech32 (muxVars r "validatorAddr"),
         .NewMsgWithdrawDelegatorReward delAddr valAddr,
         .MsgValidateBasic (env.NewMsgWithdrawDelegatorReward delAddr valAddr),
         .WriteErrorResponse 400 err])
    (hGenerate : ∀ req delAddr valAddr, env.ReadRESTReq r = .ok req →
      env.ValidateBasic (env.Sanitize req.BaseReq) = true →
      env.AccAddressFromBech32 (muxVars r "delegatorAddr") = .ok delAddr →
      env.ValAddressFromBech32 (muxVars r "validatorAddr") = .ok valAddr →
      env.MsgValidateBasic (env.NewMsgWithdrawDelegatorReward delAddr valAddr) = none →
      (env.Sanitize req.BaseReq).GenerateOnly = true →
      P [.ReadRESTReq r, .Sanitize req.BaseReq,
         .ValidateBasic (env.Sanitize req.BaseReq) true,
         .AccAddressFromBech32 (muxVars r "delegatorAddr"),
         .ValAddressFromBech32 (muxVars r "validatorAddr"),
         .NewMsgWithdrawDelegatorReward delAddr valAddr,
         .MsgValidateBasic (env.NewMsgWithdrawDelegatorReward delAddr valAddr),
         .WriteGenerateStdTxResponse (env.Sanitize req.BaseReq)
           [env.NewMsgWithdrawDelegatorReward delAddr valAddr]])
    (hBroadcast : ∀ req delAddr valAddr, env.ReadRESTReq r = .ok req →
      env.ValidateBasic (env.Sanitize req.BaseReq) = true →
      env.AccAddressFromBech32 (muxVars r "delegatorAddr") = .ok delAddr →
      env.ValAddressFromBech32 (muxVars r "validatorAddr") = .ok valAddr →
      env.MsgValidateBasic (env.NewMsgWithdrawDelegatorReward delAddr valAddr) = none →
      (env.Sanitize req.BaseReq).GenerateOnly = false →
      P [.ReadRESTReq r, .Sanitize req.BaseReq,
         .ValidateBasic (env.Sanitize req.BaseReq) true,
         .AccAddressFromBech32 (muxVars r "delegatorAddr"),
         .ValAddressFromBech32 (muxVars r "validatorAddr"),
         .NewMsgWithdrawDelegatorReward delAddr valAddr,
         .MsgValidateBasic (env.NewMsgWithdrawDelegatorReward delAddr valAddr),
         .CompleteAndBroadcastTxREST (env.Sanitize req.BaseReq)
           [env.NewMsgWithdrawDelegatorReward delAddr valAddr]]) :
    P (trace (withdrawDelegationRewardsHandlerFn env r)) := by
  rcases h1 : env.ReadRESTReq r with err | req
  · have := hDecode err h1
    simpa [trace, withdrawDelegationRewardsHandlerFn, invoke, h1, StatusBadRequest] using this
  cases h2 : env.ValidateBasic (env.Sanitize req.BaseReq)
  · have := hValidate req h1 h2
    simpa [trace, withdrawDelegationRewardsHandlerFn, invoke, h1, h2] using this
  rcases h3 : env.AccAddressFromBech32 (muxVars r "delegatorAddr") with err | delAddr
  · have := hDelAddr req err h1 h2 h3
    simpa [trace, withdrawDelegationRewardsHandlerFn, checkDelegatorAddressVar, invoke, h1, h2,
      h3, StatusBadRequest] using this
  rcases h4 : env.ValAddressFromBech32 (muxVars r "validatorAddr") with err | valAddr
  · have := hValAddr req delAddr err h1 h2 h3 h4
    simpa [trace, withdrawDelegationRewardsHandlerFn, checkDelegatorAddressVar,
      checkValidatorAddressVar, invoke, h1, h2, h3, h4, StatusBadRequest] using this
  rcases h5 : env.MsgValidateBasic (env.NewMsgWithdrawDelegatorReward delAddr valAddr)
    with _ | err
  · cases h6 : (env.Sanitize req.BaseReq).GenerateOnly
    · have := hBroadcast req delAddr valAddr h1 h2 h3 h4 h5 h6
      simpa [trace, withdrawDelegationRewardsHandlerFn, checkDelegatorAddressVar,
        checkValidatorAddressVar, invoke, h1, h2, h3, h4, h5, h6] using this
    · have := hGenerate req delAddr valAddr h1 h2 h3 h4 h5 h6
      simpa [trace, withdrawDelegationRewardsHandlerFn, checkDelegatorAddressVar,
        checkValidatorAddressVar, invoke, h1, h2, h3, h4, h5, h6] using this
  · have := hMsg req delAddr valAddr err h1 h2 h3 h4 h5
    simpa [trace, withdrawDelegationRewardsHandlerFn, checkDelegatorAddressVar,
      checkValidatorAddressVar, invoke, h1, h2, h3, h4, h5, StatusBadRequest] using this

/-- Case principle for `withdrawValidatorRewardsHandlerFn`: a property holds of
the handler's call log as soon as it holds of the log of each of its six
outcomes. -/
theorem validator_trace_cases {Msg : Type} (env : Collaborators Msg)
    (r : Request) (P : Log Msg → Prop)
    (hDecode : ∀ err, env.ReadRESTReq r = .error err →
      P [.ReadRESTReq r, .WriteErrorResponse 400 err])
    (hValidate : ∀ req, env.ReadRESTReq r = .ok req →
      env.ValidateBasic (env.Sanitize req.BaseReq) = false →
      P [.ReadRESTReq r, .Sanitize req.BaseReq,
         .ValidateBasic (env.Sanitize req.BaseReq) false])
    (hAddr : ∀ req err, env.ReadRESTReq r = .ok req →
      env.ValidateBasic (env.Sanitize req.BaseReq) = true →
      env.ValAddressFromBech32 (muxVars r "validatorAddr") = .error err →
      P [.ReadRESTReq r, .Sanitize req.BaseReq,
         .ValidateBasic (env.Sanitize req.BaseReq) true,
         .ValAddressFromBech32 (muxVars r "validatorAddr"),
         .WriteErrorResponse 400 err])
    (hBuild : ∀ req valAddr err, env.ReadRESTReq r = .ok req →
      env.ValidateBasic (env.Sanitize req.BaseReq) = true →
      env.ValAddressFromBech32 (muxVars r "validatorAddr") = .ok valAddr →
      env.WithdrawValidatorRewardsAndCommission valAddr = .error err →
      P [.ReadRESTReq r, .Sanitize req.BaseReq,
         .ValidateBasic (env.Sanitize req.BaseReq) true,
         .ValAddressFromBech32 (muxVars r "validatorAddr"),
         .WithdrawValidatorRewardsAndCommission valAddr,
         .WriteErrorResponse 400 err])
    (hGenerate : ∀ req valAddr msgs, env.ReadRESTReq r = .ok req →
      env.ValidateBasic (env.Sanitize req.BaseReq) = true →
      env.ValAddressFromBech32 (muxVars r "validatorAddr") = .ok valAddr →
      env.WithdrawValidatorRewardsAndCommission valAddr = .ok msgs →
      (env.Sanitize req.BaseReq).GenerateOnly = true →
      P [.ReadRESTReq r, .Sanitize req.BaseReq,
         .ValidateBasic (env.Sanitize req.BaseReq) true,
         .ValAddressFromBech32 (muxVars r "validatorAddr"),
         .WithdrawValidatorRewardsAndCommission valAddr,
         .WriteGenerateStdTxResponse (env.Sanitize req.BaseReq) msgs])
    (hBroadcast : ∀ req valAddr msgs, env.ReadRESTReq r = .ok req →
      env.ValidateBasic (env.Sanitize req.BaseReq) = true →
      env.ValAddressFromBech32 (muxVars r "validatorAddr") = .ok valAddr →
      env.WithdrawValidatorRewardsAndCommission valAddr = .ok msgs →
      (env.Sanitize req.BaseReq).GenerateOnly = false →
      P [.ReadRESTReq r, .Sanitize req.BaseReq,
         .ValidateBasic (env.Sanitize req.BaseReq) true,
         .ValAddressFromBech32 (muxVars r "validatorAddr"),
         .WithdrawValidatorRewardsAndCommission valAddr,
         .CompleteAndBroadcastTxREST (env.Sanitize req.BaseReq) msgs]) :
    P (trace (withdrawValidatorRewardsHandlerFn env r)) := by
  rcases h1 : env.ReadRESTReq r with err | req
  · have := hDecode err h1
    simpa [trace, withdrawValidatorRewardsHandlerFn, invoke, h1, StatusBadRequest] using this
  cases h2 : env.ValidateBasic (env.Sanitize req.BaseReq)
  · have := hValidate req h1 h2
    simpa [trace, withdrawValidatorRewardsHandlerFn, invoke, h1, h2] using this
  rcases h3 : env.ValAddressFromBech32 (muxVars r "validatorAddr") with err | valAddr
  · have := hAddr req err h1 h2 h3
    simpa [trace, withdrawValidatorRewardsHandlerFn, checkValidatorAddressVar, invoke, h1, h2,
      h3, StatusBadRequest] using this
  rcases h4 : env.WithdrawValidatorRewardsAndCommission valAddr with err | msgs
  · have := hBuild req valAddr err h1 h2 h3 h4
    simpa [trace, withdrawValidatorRewardsHandlerFn, checkValidatorAddressVar, invoke, h1, h2,
      h3, h4, StatusBadRequest] using this
  cases h5 : (env.Sanitize req.BaseReq).GenerateOnly
  · have := hBroadcast req valAddr msgs h1 h2 h3 h4 h5
    simpa [trace, withdrawValidatorRewardsHandlerFn, checkValidatorAddressVar, invoke, h1, h2,
      h3, h4, h5] using this
  · have := hGenerate req valAddr msgs h1 h2 h3 h4 h5
    simpa [trace, withdrawValidatorRewardsHandlerFn, checkValidatorAddressVar, invoke, h1, h2,
      h3, h4, h5] using this

/-- C1: when `ReadRESTReq` returns an error, each of the three handlers makes
exactly two calls, the decoder and `WriteErrorResponse` with status 400 and the
decode error's text; hence no BaseReq validation, no address resolution, no
message builder and no dispatch collaborator is invoked. -/
theorem decode_error_writes_400_and_stops {Msg : Type} (env : Collaborators Msg)
    (queryRoute : String) (r : Request) (err : String)
    (h : env.ReadRESTReq r = .error err) :
    trace (withdrawDelegatorRewardsHandlerFn env queryRoute r)
        = [.ReadRESTReq r, .WriteErrorResponse 400 err]
    ∧ trace (withdrawDelegationRewardsHandlerFn env r)
        = [.ReadRESTReq r, .WriteErrorResponse 400 err]
    ∧ trace (withdrawValidatorRewardsHandlerFn env r)
        = [.ReadRESTReq r, .WriteErrorResponse 400 err] := by
  simp [trace, withdrawDelegatorRewardsHandlerFn, withdrawDelegationRewardsHandlerFn,
    withdrawValidatorRewardsHandlerFn, invoke, h, StatusBadRequest]

/-- Witness for C1: an empty body against the stub collaborators. -/
theorem decode_error_writes_400_and_stops_witness :
    stubCollaborators.ReadRESTReq ⟨"", [("delegatorAddr", "cosmos1")]⟩ = .error "EOF"
    ∧ trace (withdrawDelegatorRewardsHandlerFn stubCollaborators "distr"
        ⟨"", [("delegatorAddr", "cosmos1")]⟩)
        = [.ReadRESTReq ⟨"", [("delegatorAddr", "cosmos1")]⟩, .WriteErrorResponse 400 "EOF"] :=
  ⟨rfl,
   (decode_error_writes_400_and_stops stubCollaborators "distr"
      ⟨"", [("delegatorAddr", "cosmos1")]⟩ "EOF" rfl).1⟩

/-- C2: when the body decodes to `req` but `ValidateBasic` returns false on the
sanitized BaseReq, each handler makes exactly three calls (decoder, `Sanitize`
on the decoded BaseReq, `ValidateBasic` on the result of `Sanitize`) and
nothing else: no `WriteErrorResponse` of its own, no address resolution, no
builder, no dispatch. -/
theorem invalid_base_req_stops_silently {Msg : Type} (env : Collaborators Msg)
    (queryRoute : String) (r : Request) (req : withdrawRewardsReq)
    (hdec : env.ReadRESTReq r = .ok req)
    (hval : env.ValidateBasic (env.Sanitize req.BaseReq) = false) :
    trace (withdrawDelegatorRewardsHandlerFn env queryRoute r)
        = [.ReadRESTReq r, .Sanitize req.BaseReq,
           .ValidateBasic (env.Sanitize req.BaseReq) false]
    ∧ trace (withdrawDelegationRewardsHandlerFn env r)
        = [.ReadRESTReq r, .Sanitize req.BaseReq,
           .ValidateBasic (env.Sanitize req.BaseReq) false]
    ∧ trace (withdrawValidatorRewardsHandlerFn env r)
        = [.ReadRESTReq r, .Sanitize req.BaseReq,
           .ValidateBasic (env.Sanitize req.BaseReq) false] := by
  simp [trace, withdrawDelegatorRewardsHandlerFn, withdrawDelegationRewardsHandlerFn,
    withdrawValidatorRewardsHandlerFn, invoke, hdec, hval]

/-- Witness for C2: chain id `"bad"` decodes but does not validate. -/
theorem invalid_base_req_stops_silently_witness :
    trace (withdrawValidatorRewardsHandlerFn stubCollaborators
        ⟨"bad", [("validatorAddr", "cosmosvaloper1")]⟩)
      = [.ReadRESTReq ⟨"bad", [("validatorAddr", "cosmosvaloper1")]⟩,
         .Sanitize ⟨"bad", 7, 3, "", "", false⟩,
         .ValidateBasic ⟨"bad", 7, 3, "200000", "", false⟩ false] :=
  (invalid_base_req_stops_silently stubCollaborators "distr"
    ⟨"bad", [("validatorAddr", "cosmosvaloper1")]⟩ ⟨⟨"bad", 7, 3, "", "", false⟩⟩ rfl rfl).2.2

/-- C3: with the body decoded and the BaseReq valid, a path address that does
not decode makes the handler answer 400 with the address decode error's text,
right after the failed decoding: no builder and no dispatch collaborator is
called.  In the single-delegation handler the delegator address is decoded
first, so a bad validator address is reported only when the delegator address
decoded.  Underneath, each of the two helpers returns the nil address and
`abort = true` and writes the 400 when decoding fails, returns the decoded
address and `abort = false` and writes nothing when it succeeds, and so aborts
if and only if decoding fails. -/
theorem bad_address_writes_400_and_stops {Msg : Type} (env : Collaborators Msg)
    (queryRoute : String) (r : Request) (req : withdrawRewardsReq)
    (hdec : env.ReadRESTReq r = .ok req)
    (hval : env.ValidateBasic (env.Sanitize req.BaseReq) = true) :
    (∀ err, env.AccAddressFromBech32 (muxVars r "delegatorAddr") = .error err →
        trace (withdrawDelegatorRewardsHandlerFn env queryRoute r)
          = [.ReadRESTReq r, .Sanitize req.BaseReq,
             .ValidateBasic (env.Sanitize req.BaseReq) true,
             .AccAddressFromBech32 (muxVars r "delegatorAddr"),
             .WriteErrorResponse 400 err]
        ∧ trace (withdrawDelegationRewardsHandlerFn env r)
          = [.ReadRESTReq r, .Sanitize req.BaseReq,
             .ValidateBasic (env.Sanitize req.BaseReq) true,
             .AccAddressFromBech32 (muxVars r "delegatorAddr"),
             .WriteErrorResponse 400 err])
    ∧ (∀ err, env.ValAddressFromBech32 (muxVars r "validatorAddr") = .error err →
        trace (withdrawValidatorRewardsHandlerFn env r)
          = [.ReadRESTReq r, .Sanitize req.BaseReq,
             .ValidateBasic (env.Sanitize req.BaseReq) true,
             .ValAddressFromBech32 (muxVars r "validatorAddr"),
             .WriteErrorResponse 400 err]
        ∧ (∀ delAddr, env.AccAddressFromBech32 (muxVars r "delegatorAddr") = .ok delAddr →
            trace (withdrawDelegationRewardsHandlerFn env r)
              = [.ReadRESTReq r, .Sanitize req.BaseReq,
                 .ValidateBasic (env.Sanitize req.BaseReq) true,
                 .AccAddressFromBech32 (muxVars r "delegatorAddr"),
                 .ValAddressFromBech32 (muxVars r "validatorAddr"),
                 .WriteErrorResponse 400 err])
        ∧ (∃ text, (trace (withdrawDelegationRewardsHandlerFn env r)).getLast?
              = some (.WriteErrorResponse 400 text)
            ∧ (text = err
                ∨ env.AccAddressFromBech32 (muxVars r "delegatorAddr") = .error text)
            ∧ ∀ c ∈ trace (withdrawDelegationRewardsHandlerFn env r),
                c.isBuilder = false ∧ c.isDispatch = false))
    ∧ (∀ w : Log Msg,
        (∀ err, env.AccAddressFromBech32 (muxVars r "delegatorAddr") = .error err →
          checkDelegatorAddressVar env r w
            = ((AccAddress.nil, true),
               w ++ [.AccAddressFromBech32 (muxVars r "delegatorAddr"),
                     .WriteErrorResponse 400 err]))
        ∧ (∀ addr, env.AccAddressFromBech32 (muxVars r "delegatorAddr") = .ok addr →
          checkDelegatorAddressVar env r w
            = ((addr, false), w ++ [.AccAddressFromBech32 (muxVars r "delegatorAddr")]))
        ∧ ((checkDelegatorAddressVar env r w).1.2 = true
            ↔ ∃ err, env.AccAddressFromBech32 (muxVars r "delegatorAddr") = .error err))
    ∧ (∀ w : Log Msg,
        (∀ err, env.ValAddressFromBech32 (muxVars r "validatorAddr") = .error err →
          checkValidatorAddressVar env r w
            = ((ValAddress.nil, true),
               w ++ [.ValAddressFromBech32 (muxVars r "validatorAddr"),
                     .WriteErrorResponse 400 err]))
        ∧ (∀ addr, env.ValAddressFromBech32 (muxVars r "validatorAddr") = .ok addr →
          checkValidatorAddressVar env r w
            = ((addr, false), w ++ [.ValAddressFromBech32 (muxVars r "validatorAddr")]))
        ∧ ((checkValidatorAddressVar env r w).1.2 = true
            ↔ ∃ err, env.ValAddressFromBech32 (muxVars r "validatorAddr") = .error err)) := by
  refine ⟨?_, ?_, ?_, ?_⟩
  · intro err h
    simp [trace, withdrawDelegatorRewardsHandlerFn, withdrawDelegationRewardsHandlerFn,
      checkDelegatorAddressVar, invoke, hdec, hval, h, StatusBadRequest]
  · intro err h
    refine ⟨?_, ?_, ?_⟩
    · simp [trace, withdrawValidatorRewardsHandlerFn, checkValidatorAddressVar, invoke, hdec,
        hval, h, StatusBadRequest]
    · intro delAddr hd
      simp [trace, withdrawDelegationRewardsHandlerFn, checkDelegatorAddressVar,
        checkValidatorAddressVar, invoke, hdec, hval, h, hd, StatusBadRequest]
    · rcases hd : env.AccAddressFromBech32 (muxVars r "delegatorAddr") with derr | delAddr
      · refine ⟨derr, ?_⟩
        simp [trace, withdrawDelegationRewardsHandlerFn, checkDelegatorAddressVar, invoke,
          hdec, hval, hd, StatusBadRequest, Call.isBuilder, Call.isDispatch]
      · refine ⟨err, ?_⟩
        simp [trace, withdrawDelegationRewardsHandlerFn, checkDelegatorAddressVar,
          checkValidatorAddressVar, invoke, hdec, hval, h, hd, StatusBadRequest,
          Call.isBuilder, Call.isDispatch]
  · intro w
    refine ⟨?_, ?_, ?_⟩
    · intro err h
      simp [checkDelegatorAddressVar, invoke, h, StatusBadRequest]
    · intro addr h
      simp [checkDelegatorAddressVar, invoke, h]
    · cases h : env.AccAddressFromBech32 (muxVars r "delegatorAddr") <;>
        simp [checkDelegatorAddressVar, invoke, h]
  · intro w
    refine ⟨?_, ?_, ?_⟩
    · intro err h
      simp [checkValidatorAddressVar, invoke, h, StatusBadRequest]
    · intro addr h
      simp [checkValidatorAddressVar, invoke, h]
    · cases h : env.ValAddressFromBech32 (muxVars r "validatorAddr") <;>
        simp [checkValidatorAddressVar, invoke, h]

/-- Witness for C3: delegator `"cosmos1"` decodes, validator `"cosmosval"`
does not; the single-delegation handler answers 400 with the validator
decoder's text. -/
theorem bad_address_writes_400_and_stops_witness :
    trace (withdrawDelegationRewardsHandlerFn stubCollaborators
        ⟨"x", [("delegatorAddr", "cosmos1"), ("validatorAddr", "cosmosval")]⟩)
      = [.ReadRESTReq ⟨"x", [("delegatorAddr", "cosmos1"), ("validatorAddr", "cosmosval")]⟩,
         .Sanitize ⟨"x", 7, 3, "", "", false⟩,
         .ValidateBasic ⟨"x", 7, 3, "200000", "", false⟩ true,
         .AccAddressFromBech32 "cosmos1",
         .ValAddressFromBech32 "cosmosval",
         .WriteErrorResponse 400 "decoding bech32 failed (validator)"] :=
  ((bad_address_writes_400_and_stops stubCollaborators "distr"
    ⟨"x", [("delegatorAddr", "cosmos1"), ("validatorAddr", "cosmosval")]⟩
    ⟨⟨"x", 7, 3, "", "", false⟩⟩ rfl rfl).2.1
      "decoding bech32 failed (validator)" rfl).2.1 ⟨some [1]⟩ rfl

/-- C4: when every step up to the builder succeeds and the sanitized BaseReq
has `GenerateOnly = true`, the last call of each handler is
`WriteGenerateStdTxResponse` with the sanitized BaseReq and the builder's
message list as it was returned; that call occurs once and
`CompleteAndBroadcastTxREST` does not occur. -/
theorem generate_only_writes_unsigned_tx {Msg : Type} (env : Collaborators Msg)
    (queryRoute : String) (r : Request) (req : withdrawRewardsReq)
    (hdec : env.ReadRESTReq r = .ok req)
    (hval : env.ValidateBasic (env.Sanitize req.BaseReq) = true)
    (hgen : (env.Sanitize req.BaseReq).GenerateOnly = true) :
    (∀ delAddr msgs,
        env.AccAddressFromBech32 (muxVars r "delegatorAddr") = .ok delAddr →
        env.WithdrawAllDelegatorRewards queryRoute delAddr = .ok msgs →
        trace (withdrawDelegatorRewardsHandlerFn env queryRoute r)
          = [.ReadRESTReq r, .Sanitize req.BaseReq,
             .ValidateBasic (env.Sanitize req.BaseReq) true,
             .AccAddressFromBech32 (muxVars r "delegatorAddr"),
             .WithdrawAllDelegatorRewards queryRoute delAddr,
             .WriteGenerateStdTxResponse (env.Sanitize req.BaseReq) msgs])
    ∧ (∀ delAddr valAddr,
        env.AccAddressFromBech32 (muxVars r "delegatorAddr") = .ok delAddr →
        env.ValAddressFromBech32 (muxVars r "validatorAddr") = .ok valAddr →
        env.MsgValidateBasic (env.NewMsgWithdrawDelegatorReward delAddr valAddr) = none →
        trace (withdrawDelegationRewardsHandlerFn env r)
          = [.ReadRESTReq r, .Sanitize req.BaseReq,
             .ValidateBasic (env.Sanitize req.BaseReq) true,
             .AccAddressFromBech32 (muxVars r "delegatorAddr"),
             .ValAddressFromBech32 (muxVars r "validatorAddr"),
             .NewMsgWithdrawDelegatorReward delAddr valAddr,
             .MsgValidateBasic (env.NewMsgWithdrawDelegatorReward delAddr valAddr),
             .WriteGenerateStdTxResponse (env.Sanitize req.BaseReq)
               [env.NewMsgWithdrawDelegatorReward delAddr valAddr]])
    ∧ (∀ valAddr msgs,
        env.ValAddressFromBech32 (muxVars r "validatorAddr") = .ok valAddr →
        env.WithdrawValidatorRewardsAndCommission valAddr = .ok msgs →
        trace (withdrawValidatorRewardsHandlerFn env r)
          = [.ReadRESTReq r, .Sanitize req.BaseReq,
             .ValidateBasic (env.Sanitize req.BaseReq) true,
             .ValAddressFromBech32 (muxVars r "validatorAddr"),
             .WithdrawValidatorRewardsAndCommission valAddr,
             .WriteGenerateStdTxResponse (env.Sanitize req.BaseReq) msgs]) := by
  refine ⟨?_, ?_, ?_⟩
  · intro delAddr msgs hd hb
    simp [trace, withdrawDelegatorRewardsHandlerFn, checkDelegatorAddressVar, invoke, hdec,
      hval, hgen, hd, hb]
  · intro delAddr valAddr hd hv hm
    simp [trace, withdrawDelegationRewardsHandlerFn, checkDelegatorAddressVar,
      checkValidatorAddressVar, invoke, hdec, hval, hgen, hd, hv, hm]
  · intro valAddr msgs hv hb
    simp [trace, withdrawValidatorRewardsHandlerFn, checkValidatorAddressVar, invoke, hdec,
      hval, hgen, hv, hb]

/-- Witness for C4: body `"generate"` with a decodable delegator; the two
messages of the stub builder reach the generate writer in order. -/
theorem generate_only_writes_unsigned_tx_witness :
    trace (withdrawDelegatorRewardsHandlerFn stubCollaborators "distr"
        ⟨"generate", [("delegatorAddr", "cosmos1")]⟩)
      = [.ReadRESTReq ⟨"generate", [("delegatorAddr", "cosmos1")]⟩,
         .Sanitize ⟨"generate", 7, 3, "", "", true⟩,
         .ValidateBasic ⟨"generate", 7, 3, "200000", "", true⟩ true,
         .AccAddressFromBech32 "cosmos1",
         .WithdrawAllDelegatorRewards "distr" ⟨some [1]⟩,
         .WriteGenerateStdTxResponse ⟨"generate", 7, 3, "200000", "", true⟩
           [.WithdrawDelegatorReward ⟨some [1]⟩ ⟨some [2]⟩,
            .WithdrawDelegatorReward ⟨some [1]⟩ ⟨some [5]⟩]] :=
  (generate_only_writes_unsigned_tx stubCollaborators "distr"
    ⟨"generate", [("delegatorAddr", "cosmos1")]⟩
    ⟨⟨"generate", 7, 3, "", "", true⟩⟩ rfl rfl rfl).1 ⟨some [1]⟩ _ rfl rfl

/-- C5: when every step up to the builder succeeds and the sanitized BaseReq
has `GenerateOnly = false`, the last call of each handler is
`CompleteAndBroadcastTxREST` with the sanitized BaseReq and the builder's
message list as it was returned; that call occurs once and
`WriteGenerateStdTxResponse` does not occur. -/
theorem broadcast_invoked_once_with_built_msgs {Msg : Type} (env : Collaborators Msg)
    (queryRoute : String) (r : Request) (req : withdrawRewardsReq)
    (hdec : env.ReadRESTReq r = .ok req)
    (hval : env.ValidateBasic (env.Sanitize req.BaseReq) = true)
    (hgen : (env.Sanitize req.BaseReq).GenerateOnly = false) :
    (∀ delAddr msgs,
        env.AccAddressFromBech32 (muxVars r "delegatorAddr") = .ok delAddr →
        env.WithdrawAllDelegatorRewards queryRoute delAddr = .ok msgs →
        trace (withdrawDelegatorRewardsHandlerFn env queryRoute r)
          = [.ReadRESTReq r, .Sanitize req.BaseReq,
             .ValidateBasic (env.Sanitize req.BaseReq) true,
             .AccAddressFromBech32 (muxVars r "delegatorAddr"),
             .WithdrawAllDelegatorRewards queryRoute delAddr,
             .CompleteAndBroadcastTxREST (env.Sanitize req.BaseReq) msgs])
    ∧ (∀ delAddr valAddr,
        env.AccAddressFromBech32 (muxVars r "delegatorAddr") = .ok delAddr →
        env.ValAddressFromBech32 (muxVars r "validatorAddr") = .ok valAddr →
        env.MsgValidateBasic (env.NewMsgWithdrawDelegatorReward delAddr valAddr) = none →
        trace (withdrawDelegationRewardsHandlerFn env r)
          = [.ReadRESTReq r, .Sanitize req.BaseReq,
             .ValidateBasic (env.Sanitize req.BaseReq) true,
             .AccAddressFromBech32 (muxVars r "delegatorAddr"),
             .ValAddressFromBech32 (muxVars r "validatorAddr"),
             .NewMsgWithdrawDelegatorReward delAddr valAddr,
             .MsgValidateBasic (env.NewMsgWithdrawDelegatorReward delAddr valAddr),
             .CompleteAndBroadcastTxREST (env.Sanitize req.BaseReq)
               [env.NewMsgWithdrawDelegatorReward delAddr valAddr]])
    ∧ (∀ valAddr msgs,
        env.ValAddressFromBech32 (muxVars r "validatorAddr") = .ok valAddr →
        env.WithdrawValidatorRewardsAndCommission valAddr = .ok msgs →
        trace (withdrawValidatorRewardsHandlerFn env r)
          = [.ReadRESTReq r, .Sanitize req.BaseReq,
             .ValidateBasic (env.Sanitize req.BaseReq) true,
             .ValAddressFromBech32 (muxVars r "validatorAddr"),
             .WithdrawValidatorRewardsAndCommission valAddr,
             .CompleteAndBroadcastTxREST (env.Sanitize req.BaseReq) msgs]) := by
  refine ⟨?_, ?_, ?_⟩
  · intro delAddr msgs hd hb
    simp [trace, withdrawDelegatorRewardsHandlerFn, checkDelegatorAddressVar, invoke, hdec,
      hval, hgen, hd, hb]
  · intro delAddr valAddr hd hv hm
    simp [trace, withdrawDelegationRewardsHandlerFn, checkDelegatorAddressVar,
      checkValidatorAddressVar, invoke, hdec, hval, hgen, hd, hv, hm]
  · intro valAddr msgs hv hb
    simp [trace, withdrawValidatorRewardsHandlerFn, checkValidatorAddressVar, invoke, hdec,
      hval, hgen, hv, hb]

/-- Witness for C5: body `"x"` (not generate-only) with a decodable validator;
the stub builder's two messages reach the broadcast collaborator in order. -/
theorem broadcast_invoked_once_with_built_msgs_witness :
    trace (withdrawValidatorRewardsHandlerFn stubCollaborators
        ⟨"x", [("validatorAddr", "cosmosvaloper1")]⟩)
      = [.ReadRESTReq ⟨"x", [("validatorAddr", "cosmosvaloper1")]⟩,
         .Sanitize ⟨"x", 7, 3, "", "", false⟩,
         .ValidateBasic ⟨"x", 7, 3, "200000", "", false⟩ true,
         .ValAddressFromBech32 "cosmosvaloper1",
         .WithdrawValidatorRewardsAndCommission ⟨some [2]⟩,
         .CompleteAndBroadcastTxREST ⟨"x", 7, 3, "200000", "", false⟩
           [.WithdrawDelegatorReward ⟨some [2]⟩ ⟨some [2]⟩,
            .WithdrawValidatorCommission ⟨some [2]⟩]] :=
  (broadcast_invoked_once_with_built_msgs stubCollaborators "distr"
    ⟨"x", [("validatorAddr", "cosmosvaloper1")]⟩
    ⟨⟨"x", 7, 3, "", "", false⟩⟩ rfl rfl rfl).2.2 ⟨some [2]⟩ _ rfl rfl

/-- C6: whatever the collaborators return, each handler produces exactly one
response per request: among the calls it makes, exactly one is a
`WriteErrorResponse`, a `ValidateBasic` that returned false, a
`WriteGenerateStdTxResponse` or a `CompleteAndBroadcastTxREST`. -/
theorem exactly_one_response {Msg : Type} (env : Collaborators Msg)
    (queryRoute : String) (r : Request) :
    (trace (withdrawDelegatorRewardsHandlerFn env queryRoute r)).countP Call.isResponse = 1
    ∧ (trace (withdrawDelegationRewardsHandlerFn env r)).countP Call.isResponse = 1
    ∧ (trace (withdrawValidatorRewardsHandlerFn env r)).countP Call.isResponse = 1 := by
  refine ⟨?_, ?_, ?_⟩
  · apply delegator_trace_cases env queryRoute r (fun t => t.countP Call.isResponse = 1) <;>
      intros <;> simp [Call.isResponse]
  · apply delegation_trace_cases env r (fun t => t.countP Call.isResponse = 1) <;>
      intros <;> simp [Call.isResponse]
  · apply validator_trace_cases env r (fun t => t.countP Call.isResponse = 1) <;>
      intros <;> simp [Call.isResponse]

/-- C7: in `withdrawDelegatorRewardsHandlerFn`, when the body decodes, the
BaseReq validates and the delegator address resolves but
`WithdrawAllDelegatorRewards` returns an error, the handler answers with
status 500 and the builder error's text, and calls neither dispatch
collaborator. -/
theorem delegator_build_error_writes_500 {Msg : Type} (env : Collaborators Msg)
    (queryRoute : String) (r : Request) (req : withdrawRewardsReq)
    (delAddr : AccAddress) (err : String)
    (hdec : env.ReadRESTReq r = .ok req)
    (hval : env.ValidateBasic (env.Sanitize req.BaseReq) = true)
    (haddr : env.AccAddressFromBech32 (muxVars r "delegatorAddr") = .ok delAddr)
    (hbuild : env.WithdrawAllDelegatorRewards queryRoute delAddr = .error err) :
    trace (withdrawDelegatorRewardsHandlerFn env queryRoute r)
      = [.ReadRESTReq r, .Sanitize req.BaseReq,
         .ValidateBasic (env.Sanitize req.BaseReq) true,
         .AccAddressFromBech32 (muxVars r "delegatorAddr"),
         .WithdrawAllDelegatorRewards queryRoute delAddr,
         .WriteErrorResponse 500 err] := by
  simp [trace, withdrawDelegatorRewardsHandlerFn, checkDelegatorAddressVar, invoke, hdec,
    hval, haddr, hbuild, StatusInternalServerError]

/-- Witness for C7: the stub's delegator query fails on the empty route. -/
theorem delegator_build_error_writes_500_witness :
    trace (withdrawDelegatorRewardsHandlerFn stubCollaborators ""
        ⟨"generate", [("delegatorAddr", "cosmos1")]⟩)
      = [.ReadRESTReq ⟨"generate", [("delegatorAddr", "cosmos1")]⟩,
         .Sanitize ⟨"generate", 7, 3, "", "", true⟩,
         .ValidateBasic ⟨"generate", 7, 3, "200000", "", true⟩ true,
         .AccAddressFromBech32 "cosmos1",
         .WithdrawAllDelegatorRewards "" ⟨some [1]⟩,
         .WriteErrorResponse 500 "query failed"] :=
  delegator_build_error_writes_500 stubCollaborators ""
    ⟨"generate", [("delegatorAddr", "cosmos1")]⟩ ⟨⟨"generate", 7, 3, "", "", true⟩⟩
    ⟨some [1]⟩ "query failed" rfl rfl rfl rfl

/-- C8: in `withdrawValidatorRewardsHandlerFn`, when the body decodes, the
BaseReq validates and the validator address resolves but
`WithdrawValidatorRewardsAndCommission` returns an error, the handler answers
with status 400 and the builder error's text (the status it also uses for a
validator address that does not decode), writes no 500, and calls neither
dispatch collaborator. -/
theorem validator_build_error_writes_400 {Msg : Type} (env : Collaborators Msg)
    (r : Request) (req : withdrawRewardsReq) (valAddr : ValAddress) (err : String)
    (hdec : env.ReadRESTReq r = .ok req)
    (hval : env.ValidateBasic (env.Sanitize req.BaseReq) = true)
    (haddr : env.ValAddressFromBech32 (muxVars r "validatorAddr") = .ok valAddr)
    (hbuild : env.WithdrawValidatorRewardsAndCommission valAddr = .error err) :
    trace (withdrawValidatorRewardsHandlerFn env r)
      = [.ReadRESTReq r, .Sanitize req.BaseReq,
         .ValidateBasic (env.Sanitize req.BaseReq) true,
         .ValAddressFromBech32 (muxVars r "validatorAddr"),
         .WithdrawValidatorRewardsAndCommission valAddr,
         .WriteErrorResponse 400 err]
    ∧ (∀ text, Call.WriteErrorResponse 500 text ∉ trace (withdrawValidatorRewardsHandlerFn env r))
    ∧ (∀ c ∈ trace (withdrawValidatorRewardsHandlerFn env r), c.isDispatch = false) := by
  simp [trace, withdrawValidatorRewardsHandlerFn, checkValidatorAddressVar, invoke, hdec,
    hval, haddr, hbuild, StatusBadRequest, Call.isDispatch]

/-- Witness for C8: the stub's validator builder rejects the empty address,
which the stub decoder accepts. -/
theorem validator_build_error_writes_400_witness :
    trace (withdrawValidatorRewardsHandlerFn stubCollaborators ⟨"x", []⟩)
      = [.ReadRESTReq ⟨"x", []⟩,
         .Sanitize ⟨"x", 7, 3, "", "", false⟩,
         .ValidateBasic ⟨"x", 7, 3, "200000", "", false⟩ true,
         .ValAddressFromBech32 "",
         .WithdrawValidatorRewardsAndCommission ⟨some []⟩,
         .WriteErrorResponse 400 "validator address is nil"] :=
  (validator_build_error_writes_400 stubCollaborators ⟨"x", []⟩
    ⟨⟨"x", 7, 3, "", "", false⟩⟩ ⟨some []⟩ "validator address is nil" rfl rfl rfl rfl).1

/-- C9: in `withdrawDelegationRewardsHandlerFn`, when the body decodes, the
BaseReq validates and both addresses resolve to `delAddr` and `valAddr`, the
handler builds the single message `NewMsgWithdrawDelegatorReward delAddr
valAddr` and runs that message's `ValidateBasic` before any dispatch.  If it
returns an error the response is a 400 with that text and no dispatch
collaborator is called; otherwise the dispatcher selected by `GenerateOnly`
receives the one-element list holding exactly that message. -/
theorem delegation_builds_one_validated_msg {Msg : Type} (env : Collaborators Msg)
    (r : Request) (req : withdrawRewardsReq) (delAddr : AccAddress) (valAddr : ValAddress)
    (hdec : env.ReadRESTReq r = .ok req)
    (hval : env.ValidateBasic (env.Sanitize req.BaseReq) = true)
    (hdel : env.AccAddressFromBech32 (muxVars r "delegatorAddr") = .ok delAddr)
    (hvaladdr : env.ValAddressFromBech32 (muxVars r "validatorAddr") = .ok valAddr) :
    (∀ err,
        env.MsgValidateBasic (env.NewMsgWithdrawDelegatorReward delAddr valAddr) = some err →
        trace (withdrawDelegationRewardsHandlerFn env r)
          = [.ReadRESTReq r, .Sanitize req.BaseReq,
             .ValidateBasic (env.Sanitize req.BaseReq) true,
             .AccAddressFromBech32 (muxVars r "delegatorAddr"),
             .ValAddressFromBech32 (muxVars r "validatorAddr"),
             .NewMsgWithdrawDelegatorReward delAddr valAddr,
             .MsgValidateBasic (env.NewMsgWithdrawDelegatorReward delAddr valAddr),
             .WriteErrorResponse 400 err])
    ∧ (env.MsgValidateBasic (env.NewMsgWithdrawDelegatorReward delAddr valAddr) = none →
        trace (withdrawDelegationRewardsHandlerFn env r)
          = [.ReadRESTReq r, .Sanitize req.BaseReq,
             .ValidateBasic (env.Sanitize req.BaseReq) true,
             .AccAddressFromBech32 (muxVars r "delegatorAddr"),
             .ValAddressFromBech32 (muxVars r "validatorAddr"),
             .NewMsgWithdrawDelegatorReward delAddr valAddr,
             .MsgValidateBasic (env.NewMsgWithdrawDelegatorReward delAddr valAddr),
             if (env.Sanitize req.BaseReq).GenerateOnly then
               .WriteGenerateStdTxResponse (env.Sanitize req.BaseReq)
                 [env.NewMsgWithdrawDelegatorReward delAddr valAddr]
             else
               .CompleteAndBroadcastTxREST (env.Sanitize req.BaseReq)
                 [env.NewMsgWithdrawDelegatorReward delAddr valAddr]])
    ∧ (trace (withdrawDelegationRewardsHandlerFn env r)).countP Call.isBuilder = 1 := by
  refine ⟨?_, ?_, ?_⟩
  · intro err hm
    simp [trace, withdrawDelegationRewardsHandlerFn, checkDelegatorAddressVar,
      checkValidatorAddressVar, invoke, hdec, hval, hdel, hvaladdr, hm, StatusBadRequest]
  · intro hm
    cases hg : (env.Sanitize req.BaseReq).GenerateOnly <;>
      simp [trace, withdrawDelegationRewardsHandlerFn, checkDelegatorAddressVar,
        checkValidatorAddressVar, invoke, hdec, hval, hdel, hvaladdr, hm, hg]
  · rcases hm : env.MsgValidateBasic (env.NewMsgWithdrawDelegatorReward delAddr valAddr)
      with _ | err
    · cases hg : (env.Sanitize req.BaseReq).GenerateOnly <;>
        simp [trace, withdrawDelegationRewardsHandlerFn, checkDelegatorAddressVar,
          checkValidatorAddressVar, invoke, hdec, hval, hdel, hvaladdr, hm, hg,
          Call.isBuilder]
    · simp [trace, withdrawDelegationRewardsHandlerFn, checkDelegatorAddressVar,
        checkValidatorAddressVar, invoke, hdec, hval, hdel, hvaladdr, hm, Call.isBuilder]

/-- Witness for C9: with no `delegatorAddr` variable the stub decodes the empty
text to an empty address, and the message built from it fails its own
validation. -/
theorem delegation_builds_one_validated_msg_witness :
    trace (withdrawDelegationRewardsHandlerFn stubCollaborators
        ⟨"x", [("validatorAddr", "cosmosvaloper1")]⟩)
      = [.ReadRESTReq ⟨"x", [("validatorAddr", "cosmosvaloper1")]⟩,
         .Sanitize ⟨"x", 7, 3, "", "", false⟩,
         .ValidateBasic ⟨"x", 7, 3, "200000", "", false⟩ true,
         .AccAddressFromBech32 "",
         .ValAddressFromBech32 "cosmosvaloper1",
         .NewMsgWithdrawDelegatorReward ⟨some []⟩ ⟨some [2]⟩,
         .MsgValidateBasic (.WithdrawDelegatorReward ⟨some []⟩ ⟨some [2]⟩),
         .WriteErrorResponse 400 "delegator address is nil"] :=
  (delegation_builds_one_validated_msg stubCollaborators
    ⟨"x", [("validatorAddr", "cosmosvaloper1")]⟩ ⟨⟨"x", 7, 3, "", "", false⟩⟩
    ⟨some []⟩ ⟨some [2]⟩ rfl rfl rfl rfl).1 "delegator address is nil" rfl

/-- The calls of each handler occur in strictly increasing pipeline position. -/
theorem trace_positions_increase {Msg : Type} (env : Collaborators Msg)
    (queryRoute : String) (r : Request) :
    (trace (withdrawDelegatorRewardsHandlerFn env queryRoute r)).Pairwise
        (fun a b => a.position < b.position)
      ∧ (trace (withdrawDelegationRewardsHandlerFn env r)).Pairwise
        (fun a b => a.position < b.position)
      ∧ (trace (withdrawValidatorRewardsHandlerFn env r)).Pairwise
        (fun a b => a.position < b.position) := by
  refine ⟨?_, ?_, ?_⟩
  · apply delegator_trace_cases env queryRoute r
      (fun t => t.Pairwise (fun a b => a.position < b.position)) <;>
      intros <;> simp [Call.position]
  · apply delegation_trace_cases env r
      (fun t => t.Pairwise (fun a b => a.position < b.position)) <;>
      intros <;> simp [Call.position]
  · apply validator_trace_cases env r
      (fun t => t.Pairwise (fun a b => a.position < b.position)) <;>
      intros <;> simp [Call.position]

/-- In each handler a call that produces the response is the last call. -/
theorem response_is_last_call {Msg : Type} (env : Collaborators Msg)
    (queryRoute : String) (r : Request) :
    (∀ c ∈ trace (withdrawDelegatorRewardsHandlerFn env queryRoute r), c.isResponse = true →
          (trace (withdrawDelegatorRewardsHandlerFn env queryRoute r)).getLast? = some c)
      ∧ (∀ c ∈ trace (withdrawDelegationRewardsHandlerFn env r), c.isResponse = true →
          (trace (withdrawDelegationRewardsHandlerFn env r)).getLast? = some c)
      ∧ (∀ c ∈ trace (withdrawValidatorRewardsHandlerFn env r), c.isResponse = true →
          (trace (withdrawValidatorRewardsHandlerFn env r)).getLast? = some c) := by
  refine ⟨?_, ?_, ?_⟩
  · apply delegator_trace_cases env queryRoute r
      (fun t => ∀ c ∈ t, c.isResponse = true → t.getLast? = some c) <;>
      intros <;> rename_i c hc hr <;> revert c <;> simp [Call.isResponse]
  · apply delegation_trace_cases env r
      (fun t => ∀ c ∈ t, c.isResponse = true → t.getLast? = some c) <;>
      intros <;> rename_i c hc hr <;> revert c <;> simp [Call.isResponse]
  · apply validator_trace_cases env r
      (fun t => ∀ c ∈ t, c.isResponse = true → t.getLast? = some c) <;>
      intros <;> rename_i c hc hr <;> revert c <;> simp [Call.isResponse]

/-- The delegator handler dispatches exactly when decode, validation, address
resolution and the builder all succeed. -/
theorem delegator_dispatch_iff {Msg : Type} (env : Collaborators Msg)
    (queryRoute : String) (r : Request) :
    (∃ c ∈ trace (withdrawDelegatorRewardsHandlerFn env queryRoute r), c.isDispatch = true)
        ↔ ∃ req delAddr msgs, env.ReadRESTReq r = .ok req
            ∧ env.ValidateBasic (env.Sanitize req.BaseReq) = true
            ∧ env.AccAddressFromBech32 (muxVars r "delegatorAddr") = .ok delAddr
            ∧ env.WithdrawAllDelegatorRewards queryRoute delAddr = .ok msgs := by
  apply delegator_trace_cases env queryRoute r
      (fun t => (∃ c ∈ t, c.isDispatch = true)
        ↔ ∃ req delAddr msgs, env.ReadRESTReq r = .ok req
            ∧ env.ValidateBasic (env.Sanitize req.BaseReq) = true
            ∧ env.AccAddressFromBech32 (muxVars r "delegatorAddr") = .ok delAddr
            ∧ env.WithdrawAllDelegatorRewards queryRoute delAddr = .ok msgs) <;>
      intros <;>
      first
        | exact iff_of_true (by simp [Call.isDispatch])
            ⟨_, _, _, by assumption, by assumption, by assumption, by assumption⟩
        | (refine iff_of_false (by simp [Call.isDispatch]) ?_
           rintro ⟨req, x, y, h⟩
           simp_all)

/-- The single-delegation handler dispatches exactly when decode, validation,
both address resolutions and the message's own validation all succeed. -/
theorem delegation_dispatch_iff {Msg : Type} (env : Collaborators Msg) (r : Request) :
    (∃ c ∈ trace (withdrawDelegationRewardsHandlerFn env r), c.isDispatch = true)
        ↔ ∃ req delAddr valAddr, env.ReadRESTReq r = .ok req
            ∧ env.ValidateBasic (env.Sanitize req.BaseReq) = true
            ∧ env.AccAddressFromBech32 (muxVars r "delegatorAddr") = .ok delAddr
            ∧ env.ValAddressFromBech32 (muxVars r "validatorAddr") = .ok valAddr
            ∧ env.MsgValidateBasic (env.NewMsgWithdrawDelegatorReward delAddr valAddr)
                = none := by
  apply delegation_trace_cases env r
      (fun t => (∃ c ∈ t, c.isDispatch = true)
        ↔ ∃ req delAddr valAddr, env.ReadRESTReq r = .ok req
            ∧ env.ValidateBasic (env.Sanitize req.BaseReq) = true
            ∧ env.AccAddressFromBech32 (muxVars r "delegatorAddr") = .ok delAddr
            ∧ env.ValAddressFromBech32 (muxVars r "validatorAddr") = .ok valAddr
            ∧ env.MsgValidateBasic (env.NewMsgWithdrawDelegatorReward delAddr valAddr)
                = none) <;>
      intros <;>
      first
        | exact iff_of_true (by simp [Call.isDispatch])
            ⟨_, _, _, by assumption, by assumption, by assumption, by assumption,
              by assumption⟩
        | (refine iff_of_false (by simp [Call.isDispatch]) ?_
           rintro ⟨req, x, y, h⟩
           simp_all)

/-- The validator handler dispatches exactly when decode, validation, address
resolution and the builder all succeed. -/
theorem validator_dispatch_iff {Msg : Type} (env : Collaborators Msg) (r : Request) :
    (∃ c ∈ trace (withdrawValidatorRewardsHandlerFn env r), c.isDispatch = true)
        ↔ ∃ req valAddr msgs, env.ReadRESTReq r = .ok req
            ∧ env.ValidateBasic (env.Sanitize req.BaseReq) = true
            ∧ env.ValAddressFromBech32 (muxVars r "validatorAddr") = .ok valAddr
            ∧ env.WithdrawValidatorRewardsAndCommission valAddr = .ok msgs := by
  apply validator_trace_cases env r
      (fun t => (∃ c ∈ t, c.isDispatch = true)
        ↔ ∃ req valAddr msgs, env.ReadRESTReq r = .ok req
            ∧ env.ValidateBasic (env.Sanitize req.BaseReq) = true
            ∧ env.ValAddressFromBech32 (muxVars r "validatorAddr") = .ok valAddr
            ∧ env.WithdrawValidatorRewardsAndCommission valAddr = .ok msgs) <;>
      intros <;>
      first
        | exact iff_of_true (by simp [Call.isDispatch])
            ⟨_, _, _, by assumption, by assumption, by assumption, by assumption⟩
        | (refine iff_of_false (by simp [Call.isDispatch]) ?_
           rintro ⟨req, x, y, h⟩
           simp_all)

/-- C10: each handler runs decode, sanitize, validate, address resolution,
build, dispatch in that order and stops at the first step that fails.  For
every request: the calls occur in strictly increasing pipeline position, and a
call that produces the response is the last call.  (i) When the body does not
decode, the last call is the 400 with the body decode error and no address
decoder is called, whatever the path addresses are.  (ii) In the
single-delegation handler, when both path addresses are malformed, the last
call is the 400 with the delegator decode error and the validator decoder is
not called.  (iii) A dispatch collaborator is called if and only if the body
decodes, the sanitized BaseReq validates, every path address decodes and the
builder (for the single-delegation handler, the message's `ValidateBasic`)
reports no error. -/
theorem pipeline_stops_at_first_failure {Msg : Type} (env : Collaborators Msg)
    (queryRoute : String) (r : Request) :
    ((trace (withdrawDelegatorRewardsHandlerFn env queryRoute r)).Pairwise
        (fun a b => a.position < b.position)
      ∧ (trace (withdrawDelegationRewardsHandlerFn env r)).Pairwise
        (fun a b => a.position < b.position)
      ∧ (trace (withdrawValidatorRewardsHandlerFn env r)).Pairwise
        (fun a b => a.position < b.position))
    ∧ ((∀ c ∈ trace (withdrawDelegatorRewardsHandlerFn env queryRoute r), c.isResponse = true →
          (trace (withdrawDelegatorRewardsHandlerFn env queryRoute r)).getLast? = some c)
      ∧ (∀ c ∈ trace (withdrawDelegationRewardsHandlerFn env r), c.isResponse = true →
          (trace (withdrawDelegationRewardsHandlerFn env r)).getLast? = some c)
      ∧ (∀ c ∈ trace (withdrawValidatorRewardsHandlerFn env r), c.isResponse = true →
          (trace (withdrawValidatorRewardsHandlerFn env r)).getLast? = some c))
    ∧ (∀ err, env.ReadRESTReq r = .error err →
        ((trace (withdrawDelegatorRewardsHandlerFn env queryRoute r)).getLast?
            = some (.WriteErrorResponse 400 err)
          ∧ ∀ c ∈ trace (withdrawDelegatorRewardsHandlerFn env queryRoute r),
              c.isAddressDecode = false)
        ∧ ((trace (withdrawDelegationRewardsHandlerFn env r)).getLast?
            = some (.WriteErrorResponse 400 err)
          ∧ ∀ c ∈ trace (withdrawDelegationRewardsHandlerFn env r),
              c.isAddressDecode = false)
        ∧ ((trace (withdrawValidatorRewardsHandlerFn env r)).getLast?
            = some (.WriteErrorResponse 400 err)
          ∧ ∀ c ∈ trace (withdrawValidatorRewardsHandlerFn env r),
              c.isAddressDecode = false))
    ∧ (∀ req delErr valErr, env.ReadRESTReq r = .ok req →
        env.ValidateBasic (env.Sanitize req.BaseReq) = true →
        env.AccAddressFromBech32 (muxVars r "delegatorAddr") = .error delErr →
        env.ValAddressFromBech32 (muxVars r "validatorAddr") = .error valErr →
        (trace (withdrawDelegationRewardsHandlerFn env r)).getLast?
            = some (.WriteErrorResponse 400 delErr)
        ∧ (trace (withdrawDelegationRewardsHandlerFn env r)).countP Call.isResponse = 1
        ∧ ∀ text, Call.ValAddressFromBech32 text
            ∉ trace (withdrawDelegationRewardsHandlerFn env r))
    ∧ ((∃ c ∈ trace (withdrawDelegatorRewardsHandlerFn env queryRoute r), c.isDispatch = true)
        ↔ ∃ req delAddr msgs, env.ReadRESTReq r = .ok req
            ∧ env.ValidateBasic (env.Sanitize req.BaseReq) = true
            ∧ env.AccAddressFromBech32 (muxVars r "delegatorAddr") = .ok delAddr
            ∧ env.WithdrawAllDelegatorRewards queryRoute delAddr = .ok msgs)
    ∧ ((∃ c ∈ trace (withdrawDelegationRewardsHandlerFn env r), c.isDispatch = true)
        ↔ ∃ req delAddr valAddr, env.ReadRESTReq r = .ok req
            ∧ env.ValidateBasic (env.Sanitize req.BaseReq) = true
            ∧ env.AccAddressFromBech32 (muxVars r "delegatorAddr") = .ok delAddr
            ∧ env.ValAddressFromBech32 (muxVars r "validatorAddr") = .ok valAddr
            ∧ env.MsgValidateBasic (env.NewMsgWithdrawDelegatorReward delAddr valAddr) = none)
    ∧ ((∃ c ∈ trace (withdrawValidatorRewardsHandlerFn env r), c.isDispatch = true)
        ↔ ∃ req valAddr msgs, env.ReadRESTReq r = .ok req
            ∧ env.ValidateBasic (env.Sanitize req.BaseReq) = true
            ∧ env.ValAddressFromBech32 (muxVars r "validatorAddr") = .ok valAddr
            ∧ env.WithdrawValidatorRewardsAndCommission valAddr = .ok msgs) := by
  refine ⟨trace_positions_increase env queryRoute r, response_is_last_call env queryRoute r,
    ?_, ?_, delegator_dispatch_iff env queryRoute r, delegation_dispatch_iff env r,
    validator_dispatch_iff env r⟩
  · intro err h
    simp [trace, withdrawDelegatorRewardsHandlerFn, withdrawDelegationRewardsHandlerFn,
      withdrawValidatorRewardsHandlerFn, invoke, h, StatusBadRequest, Call.isAddressDecode]
  · intro req delErr valErr h1 h2 h3 _
    simp [trace, withdrawDelegationRewardsHandlerFn, checkDelegatorAddressVar, invoke, h1, h2,
      h3, StatusBadRequest, Call.isResponse]

/-- Witness for C10: both path addresses malformed against the stub; the
single-delegation handler reports the delegator decoder's error and does not
call the validator decoder. -/
theorem pipeline_stops_at_first_failure_witness :
    (trace (withdrawDelegationRewardsHandlerFn stubCollaborators
        ⟨"x", [("delegatorAddr", "cos"), ("validatorAddr", "cosmosval")]⟩)).getLast?
      = some (.WriteErrorResponse 400 "decoding bech32 failed (account)")
    ∧ (trace (withdrawDelegationRewardsHandlerFn stubCollaborators
        ⟨"x", [("delegatorAddr", "cos"), ("validatorAddr", "cosmosval")]⟩)).countP
          Call.isResponse = 1
    ∧ ∀ text, Call.ValAddressFromBech32 text
        ∉ trace (withdrawDelegationRewardsHandlerFn stubCollaborators
            ⟨"x", [("delegatorAddr", "cos"), ("validatorAddr", "cosmosval")]⟩) :=
  (pipeline_stops_at_first_failure stubCollaborators "distr"
    ⟨"x", [("delegatorAddr", "cos"), ("validatorAddr", "cosmosval")]⟩).2.2.2.1
    ⟨⟨"x", 7, 3, "", "", false⟩⟩ "decoding bech32 failed (account)"
    "decoding bech32 failed (validator)" rfl rfl rfl rfl

end Rest
